import Mathlib

/-!
Shallow embedding of `src/scripts/libraries/max17262.py`, a MicroPython driver
for the MAX17262 battery fuel-gauge IC, together with proofs about the claims
of the specification.

Modelling conventions:
* Python floats are modelled as exact rationals (`ℚ`); every literal in the
  source (`0.5`, `156.25`, `52.083`, `0.1667`, ...) is exactly representable.
* The I2C bus is an external oracle.  A single read transaction is answered
  by a `BusResp : ℕ → List ℕ` (register address to returned bytes); the bus
  behaviour over time is a `BusStream : ℕ → BusResp`, giving the response
  used by the i-th read transaction of the constructor.
* Bus traffic is recorded as a list of `Event`s (reads and writes), so that
  frame and ordering properties can be stated.
* The two unbounded `while` polling loops of `__init__` are modelled with an
  explicit fuel argument counting loop-condition evaluations; a result of
  `none` for a given fuel means the Python loop has not yet exited after that
  many iterations.  Nontermination of the source loop is `none` for *every*
  fuel.
* `struct.pack` is modelled with MicroPython semantics: this library targets
  MicroPython (it imports `time.sleep_ms` and `machine.I2C`), whose `struct`
  implementation does not range-check integer arguments but silently
  truncates them modulo 2^16 for the `"<H"` and `"<h"` format codes (a
  documented difference from CPython, which raises `struct.error`).  Hence
  both pack functions reduce the value modulo 2^16 and emit the two bytes
  little-endian.
-/

/-! ## Constants from the source (module level of max17262.py) -/

def DEVICE_ADDRESS : ℕ := 0x36

def REG_DesignCap : ℕ := 0x18
def REG_ModelCfg : ℕ := 0xDB
def REG_IChgTerm : ℕ := 0x1E
def REG_FStat : ℕ := 0x3D

def REG_RepCap : ℕ := 0x05
def REG_RepSOC : ℕ := 0x06
def REG_TTE : ℕ := 0x11
def REG_TTF : ℕ := 0x20
def REG_VCell : ℕ := 0x09
def REG_Current : ℕ := 0x0A
def REG_DieTemp : ℕ := 0x34

def LSB_PERCENTAGE : ℚ := 1.0 / 256.0
def LSB_VOLTAGE : ℚ := 1.25 / 16.0
def LSB_TEMPERATURE : ℚ := 1.0 / 256.0
def LSB_TIME : ℚ := 5.625
def LSB_CAPACITY_R : ℚ := 0.5
def LSB_CAPACITY_H : ℚ := 0.1667
def LSB_CURRENT_R : ℚ := 156.25
def LSB_CURRENT_H : ℚ := 52.083
def LSB_RESISTANCE_R : ℚ := 1.0 / 4096.0
def LSB_RESISTANCE_H : ℚ := 1.0 / 12288.0

/-! ## Bus model and event traces -/

/-- Response of the bus to one read transaction: register address to the two
bytes returned by `i2c.readfrom_mem(addr, reg, 2)`. -/
abbrev BusResp := ℕ → List ℕ

/-- Bus behaviour over time: `bs i` answers the i-th read transaction issued
by the constructor. -/
abbrev BusStream := ℕ → BusResp

/-- One bus transaction, as observed on the wire: a register read of `nbytes`
bytes (`i2c.readfrom_mem`) or a register write (`i2c.writeto_mem`). -/
inductive Event where
  | readMem (address mem_addr nbytes : ℕ)
  | writeMem (address mem_addr : ℕ) (data : List ℕ)
  deriving DecidableEq

/-! ## struct pack/unpack, little-endian 16-bit (MicroPython semantics) -/

/-- `struct.pack("<H", v)`: little-endian unsigned 16-bit encoding.
MicroPython's `struct` does not range-check: the value is truncated modulo
2^16 (CPython would raise `struct.error` out of range). -/
def packH (v : ℤ) : List ℕ :=
  [(v % 65536).toNat % 256, (v % 65536).toNat / 256]

/-- `struct.pack("<h", v)`: little-endian signed 16-bit encoding.  Under
MicroPython semantics this also truncates modulo 2^16, which is exactly the
two's-complement byte image, so it produces the same bytes as `"<H"`. -/
def packh (v : ℤ) : List ℕ := packH v

/-- `struct.unpack("<H", data)[0]`: little-endian unsigned 16-bit decode of a
2-byte string. -/
def unpackH (data : List ℕ) : ℕ :=
  data.headD 0 + 256 * data.tail.headD 0

/-- `struct.unpack("<h", data)[0]`: little-endian signed 16-bit decode of a
2-byte string (two's complement). -/
def unpackh (data : List ℕ) : ℤ :=
  if unpackH data < 32768 then (unpackH data : ℤ) else (unpackH data : ℤ) - 65536

/-- Python's `int(q)` on a float/rational: truncation toward zero. -/
def pyint (q : ℚ) : ℤ :=
  if 0 ≤ q then ⌊q⌋ else -⌊-q⌋

/-! ## The driver object -/

/-- The fields `__init__` stores on `self`: the bus handle (an opaque
identity here), the I2C device address and the variant flag. -/
structure MAX17262 where
  i2c : ℕ
  address : ℕ
  is_r_type : Bool
  deriving DecidableEq

/-- `read_uint16`: one 2-byte register read, decoded little-endian unsigned;
returns the value together with the bus traffic it caused. -/
def MAX17262.read_uint16 (self : MAX17262) (bus : BusResp) (mem_addr : ℕ) :
    ℕ × List Event :=
  (unpackH (bus mem_addr), [Event.readMem self.address mem_addr 2])

/-- `read_int16`: one 2-byte register read, decoded little-endian signed;
returns the value together with the bus traffic it caused. -/
def MAX17262.read_int16 (self : MAX17262) (bus : BusResp) (mem_addr : ℕ) :
    ℤ × List Event :=
  (unpackh (bus mem_addr), [Event.readMem self.address mem_addr 2])

/-! ## Accessor properties

Each accessor returns (value, bus trace, the driver object after the call).
The driver object is returned unchanged because the Python property bodies
contain no assignment. -/

/-- `state_of_charge`: state of charge in percent. -/
def MAX17262.state_of_charge (self : MAX17262) (bus : BusResp) :
    ℚ × List Event × MAX17262 :=
  let r := self.read_uint16 bus REG_RepSOC
  ((r.1 : ℚ) * LSB_PERCENTAGE, r.2, self)

/-- `time_to_empty`: time to empty in seconds. -/
def MAX17262.time_to_empty (self : MAX17262) (bus : BusResp) :
    ℚ × List Event × MAX17262 :=
  let r := self.read_uint16 bus REG_TTE
  ((r.1 : ℚ) * LSB_TIME, r.2, self)

/-- `time_to_full`: time to full in seconds. -/
def MAX17262.time_to_full (self : MAX17262) (bus : BusResp) :
    ℚ × List Event × MAX17262 :=
  let r := self.read_uint16 bus REG_TTF
  ((r.1 : ℚ) * LSB_TIME, r.2, self)

/-- `current`: battery current in µA (signed; variant-specific factor). -/
def MAX17262.current (self : MAX17262) (bus : BusResp) :
    ℚ × List Event × MAX17262 :=
  if self.is_r_type then
    let r := self.read_int16 bus REG_Current
    ((r.1 : ℚ) * LSB_CURRENT_R, r.2, self)
  else
    let r := self.read_int16 bus REG_Current
    ((r.1 : ℚ) * LSB_CURRENT_H, r.2, self)

/-- `voltage`: cell voltage in mV. -/
def MAX17262.voltage (self : MAX17262) (bus : BusResp) :
    ℚ × List Event × MAX17262 :=
  let r := self.read_uint16 bus REG_VCell
  ((r.1 : ℚ) * LSB_VOLTAGE, r.2, self)

/-- `capacity`: remaining capacity in mAh (variant-specific factor). -/
def MAX17262.capacity (self : MAX17262) (bus : BusResp) :
    ℚ × List Event × MAX17262 :=
  if self.is_r_type then
    let r := self.read_uint16 bus REG_RepCap
    ((r.1 : ℚ) * LSB_CAPACITY_R, r.2, self)
  else
    let r := self.read_uint16 bus REG_RepCap
    ((r.1 : ℚ) * LSB_CAPACITY_H, r.2, self)

/-- `temperature`: die temperature in degrees Celsius (signed). -/
def MAX17262.temperature (self : MAX17262) (bus : BusResp) :
    ℚ × List Event × MAX17262 :=
  let r := self.read_int16 bus REG_DieTemp
  ((r.1 : ℚ) * LSB_TEMPERATURE, r.2, self)

/-! ## The constructor -/

/-- The two `while self.read_uint16(reg) & mask: sleep_ms(10)` polling loops
of `__init__`.  `fuel` bounds the number of loop-condition evaluations, `k`
is the index of the next read transaction on the bus.  Returns (loop exited,
next read index, bus trace).  `(false, _, _)` means the Python loop was still
running after `fuel` condition checks. -/
def pollWhileSet (self : MAX17262) (bs : BusStream) (reg mask : ℕ) :
    ℕ → ℕ → Bool × ℕ × List Event
  | 0, k => (false, k, [])
  | fuel + 1, k =>
    let r := self.read_uint16 (bs k) reg
    if r.1 &&& mask ≠ 0 then
      let rest := pollWhileSet self bs reg mask fuel (k + 1)
      (rest.1, rest.2.1, r.2 ++ rest.2.2)
    else
      (true, k + 1, r.2)

/-- `MAX17262.__init__`, with the Python parameters in order (defaults in the
source: `lowVoltage=True`, `address=DEVICE_ADDRESS`, `is_r_type=True`),
plus the bus oracle and the fuel bound for the two polling loops.
Returns the constructed object (`none` while a polling loop has not exited
within `fuel` iterations) and the full bus trace of the run. -/
def MAX17262.init (i2c : ℕ) (capacity terminationCurrent : ℚ)
    (lowVoltage : Bool) (address : ℕ) (is_r_type : Bool)
    (bs : BusStream) (fuel : ℕ) : Option MAX17262 × List Event :=
  let self : MAX17262 := ⟨i2c, address, is_r_type⟩
  -- wait while the "data not ready (DNR)" bit is cleared
  let p1 := pollWhileSet self bs REG_FStat 0x0001 fuel 0
  if p1.1 = false then (none, p1.2.2) else
  let cap : ℤ :=
    if is_r_type then pyint (capacity / LSB_CAPACITY_R)
    else pyint (capacity / LSB_CAPACITY_H)
  let cur : ℤ :=
    if is_r_type then pyint (terminationCurrent / LSB_CURRENT_R)
    else pyint (terminationCurrent / LSB_CURRENT_H)
  -- set the battery parameters for the ic to use
  let w1 := Event.writeMem address REG_DesignCap (packH cap)
  let w2 := Event.writeMem address REG_IChgTerm (packh cur)
  -- reset the ic and set the appropriate charging voltage
  let w3 := Event.writeMem address REG_ModelCfg
    (if lowVoltage then [0x00, 0x80] else [0x00, 0x84])
  -- wait for the ic to clear the reset bit
  let p2 := pollWhileSet self bs REG_ModelCfg 0x8000 fuel p1.2.1
  ((if p2.1 then some self else none), p1.2.2 ++ [w1, w2, w3] ++ p2.2.2)

/-! ## Trace observations and concrete buses -/

/-- The write events of a trace. -/
def writesOf (tr : List Event) : List Event :=
  tr.filter fun e =>
    match e with
    | Event.writeMem _ _ _ => true
    | _ => false

/-- The data payloads written to register `reg` in a trace, in order. -/
def writesTo (reg : ℕ) (tr : List Event) : List (List ℕ) :=
  tr.filterMap fun e =>
    match e with
    | Event.writeMem _ m data => if m = reg then some data else none
    | _ => none

/-- A bus on which every register always reads as the bytes `[0x01, 0x00]`
(value 1: FStat bit 0 "data not ready" permanently set). -/
def stuckBus : BusStream := fun _ _ => [0x01, 0x00]

/-- A bus on which every register always reads as zero: both polling loops
exit at their first condition check. -/
def zeroBus : BusStream := fun _ _ => [0x00, 0x00]

/-- A single-instant bus answering register `reg` with `data` and every other
register with zero. -/
def busWith (reg : ℕ) (data : List ℕ) : BusResp :=
  fun r => if r = reg then data else [0x00, 0x00]

/-- The constructor run never completes, whatever iteration bound the polling
loops are given: i.e. the Python constructor loops forever on this bus. -/
def initDiverges (i2c : ℕ) (capacity terminationCurrent : ℚ)
    (lowVoltage : Bool) (address : ℕ) (is_r_type : Bool)
    (bs : BusStream) : Prop :=
  ∀ fuel, (MAX17262.init i2c capacity terminationCurrent lowVoltage address
      is_r_type bs fuel).1 = none

/-! ## Helper lemmas (shared) -/

/-- Unsigned little-endian decode of an unsigned little-endian encode
recovers the value modulo 2^16. -/
theorem unpackH_packH (v : ℤ) : unpackH (packH v) = (v % 65536).toNat := by
  simp [unpackH, packH]
  omega

/-- Unsigned round trip for in-range values. -/
theorem unpackH_packH_of_lt (v : ℕ) (h : v < 65536) :
    unpackH (packH (v : ℤ)) = v := by
  rw [unpackH_packH]
  omega

/-- Signed round trip for in-range values. -/
theorem unpackh_packh_of_range (v : ℤ) (h1 : -32768 ≤ v) (h2 : v ≤ 32767) :
    unpackh (packh v) = v := by
  rw [packh, unpackh, unpackH_packH]
  split <;> omega

/-- Every event emitted by a polling loop is a 2-byte read of the polled
register. -/
theorem pollWhileSet_events (self : MAX17262) (bs : BusStream) (reg mask : ℕ) :
    ∀ fuel k, ∀ e ∈ (pollWhileSet self bs reg mask fuel k).2.2,
      e = Event.readMem self.address reg 2 := by
  intro fuel
  induction fuel with
  | zero => intro k e he; simp [pollWhileSet] at he
  | succ n ih =>
    intro k e he
    simp only [pollWhileSet, MAX17262.read_uint16] at he
    split at he
    · simp only [List.mem_append, List.mem_singleton] at he
      rcases he with h | h
      · exact h
      · exact ih (k + 1) e h
    · simp only [List.mem_singleton] at he
      exact he

/-- If every read of the polled register keeps the masked bit set, the
polling loop never exits, for any fuel. -/
theorem pollWhileSet_stuck (self : MAX17262) (bs : BusStream) (reg mask : ℕ)
    (h : ∀ k, unpackH ((bs k) reg) &&& mask ≠ 0) :
    ∀ fuel k, (pollWhileSet self bs reg mask fuel k).1 = false := by
  intro fuel
  induction fuel with
  | zero => intro k; simp [pollWhileSet]
  | succ n ih =>
    intro k
    simp only [pollWhileSet, MAX17262.read_uint16]
    rw [if_pos (h k)]
    exact ih (k + 1)

/-- If the polling loop exits, some read of the polled register within the
fuel bound returned a value with the masked bit clear. -/
theorem pollWhileSet_exit (self : MAX17262) (bs : BusStream) (reg mask : ℕ) :
    ∀ fuel k, (pollWhileSet self bs reg mask fuel k).1 = true →
      ∃ j, k ≤ j ∧ j < k + fuel ∧ unpackH ((bs j) reg) &&& mask = 0 := by
  intro fuel
  induction fuel with
  | zero => intro k h; simp [pollWhileSet] at h
  | succ n ih =>
    intro k h
    simp only [pollWhileSet, MAX17262.read_uint16] at h
    by_cases hc : unpackH ((bs k) reg) &&& mask ≠ 0
    · rw [if_pos hc] at h
      obtain ⟨j, hj1, hj2, hj3⟩ := ih (k + 1) h
      exact ⟨j, by omega, by omega, hj3⟩
    · exact ⟨k, le_refl k, by omega, by omega⟩

/-- A polling loop issues no writes. -/
theorem writesTo_pollWhileSet (reg' : ℕ) (self : MAX17262) (bs : BusStream)
    (reg mask fuel k : ℕ) :
    writesTo reg' (pollWhileSet self bs reg mask fuel k).2.2 = [] := by
  induction fuel generalizing k with
  | zero => simp [pollWhileSet, writesTo]
  | succ n ih =>
    simp only [pollWhileSet, MAX17262.read_uint16]
    split
    · simp [writesTo, List.filterMap_append] at ih ⊢
      exact ih (k + 1)
    · simp [writesTo]

/-- A polling loop leaves no write events in the trace. -/
theorem writesOf_pollWhileSet (self : MAX17262) (bs : BusStream)
    (reg mask fuel k : ℕ) :
    writesOf (pollWhileSet self bs reg mask fuel k).2.2 = [] := by
  induction fuel generalizing k with
  | zero => simp [pollWhileSet, writesOf]
  | succ n ih =>
    simp only [pollWhileSet, MAX17262.read_uint16]
    split
    · simp [writesOf, List.filter_append] at ih ⊢
      exact ih (k + 1)
    · simp [writesOf]

/-- `writesTo` distributes over trace concatenation. -/
theorem writesTo_append (reg : ℕ) (t1 t2 : List Event) :
    writesTo reg (t1 ++ t2) = writesTo reg t1 ++ writesTo reg t2 := by
  simp [writesTo, List.filterMap_append]

/-- `writesOf` distributes over trace concatenation. -/
theorem writesOf_append (t1 t2 : List Event) :
    writesOf (t1 ++ t2) = writesOf t1 ++ writesOf t2 := by
  simp [writesOf, List.filter_append]

/-- On `stuckBus` every flag-status read keeps bit 0 set. -/
theorem stuckBus_bit0 (k : ℕ) : unpackH (stuckBus k REG_FStat) &&& 0x0001 ≠ 0 := by
  simp [stuckBus, unpackH]

/-! ## Claim C1 -/

/-- Claim C1 counterexample: on a ready bus with `lowVoltage = True`, the
constructor writes the byte string `[0x00, 0x80]` to the model-configuration
register 0xDB; decoded by the driver's own little-endian 16-bit codec this is
the value 0x8000, not 0x0080 as the claim states. -/
theorem c1_counterexample :
    writesTo REG_ModelCfg (MAX17262.init 0 340 50000 true 0x36 true zeroBus 1).2 =
      [[0x00, 0x80]] ∧
    unpackH [0x00, 0x80] = 0x8000 ∧ unpackH [0x00, 0x80] ≠ 0x0080 := by
  refine ⟨?_, by decide, by decide⟩
  simp [MAX17262.init, pollWhileSet, MAX17262.read_uint16, zeroBus, unpackH,
    writesTo, REG_ModelCfg, REG_DesignCap, REG_IChgTerm, REG_FStat]

/-- Claim C1 (amended): for every choice of constructor parameters, bus and
fuel, any write the constructor issues to the model-configuration register
(0xDB) carries the byte string `[0x00, 0x80]` when `lowVoltage = True` and
`[0x00, 0x84]` when `lowVoltage = False`; as little-endian 16-bit values
these are 0x8000 (reset bit 15 set) and 0x8400 (reset + charge-voltage bit),
respectively. -/
theorem c1_modelcfg_bytes (i2c : ℕ) (capacity terminationCurrent : ℚ)
    (lowVoltage : Bool) (address : ℕ) (is_r_type : Bool)
    (bs : BusStream) (fuel : ℕ) :
    (writesTo REG_ModelCfg (MAX17262.init i2c capacity terminationCurrent
        lowVoltage address is_r_type bs fuel).2 = [] ∨
      writesTo REG_ModelCfg (MAX17262.init i2c capacity terminationCurrent
        lowVoltage address is_r_type bs fuel).2 =
        [if lowVoltage then [0x00, 0x80] else [0x00, 0x84]]) ∧
    unpackH (if lowVoltage then [0x00, 0x80] else [0x00, 0x84]) =
      (if lowVoltage then 0x8000 else 0x8400) := by
  constructor
  · simp only [MAX17262.init]
    split
    · left
      exact writesTo_pollWhileSet _ _ _ _ _ _ _
    · right
      rw [writesTo_append, writesTo_append, writesTo_pollWhileSet,
        writesTo_pollWhileSet]
      simp [writesTo, REG_ModelCfg, REG_DesignCap, REG_IChgTerm]
  · cases lowVoltage <;> decide

/-! ## Claim C2 -/

/-- Claim C2 counterexample: on a bus whose flag-status register (0x3D)
always reads with bit 0 ("data not ready") set, the constructor never
completes, whatever iteration bound the DNR polling loop is given — the
source loop has no timeout, raises nothing, and loops forever; in particular
it does not terminate with an `InitTimeout` error (no such error exists in
the code). -/
theorem c2_counterexample : initDiverges 0 340 50000 true 0x36 true stuckBus := by
  intro fuel
  simp only [MAX17262.init]
  rw [if_pos]
  exact pollWhileSet_stuck _ stuckBus REG_FStat 0x0001 stuckBus_bit0 fuel 0

/-- Claim C2 (amended): for every bus whose flag-status register (0x3D)
always returns a value with bit 0 set, construction never completes: for
every iteration bound the DNR polling loop is still running.  The source has
no timeout and no `InitTimeout` error; the constructor hangs indefinitely. -/
theorem c2_unbounded_wait (i2c : ℕ) (capacity terminationCurrent : ℚ)
    (lowVoltage : Bool) (address : ℕ) (is_r_type : Bool) (bs : BusStream)
    (h : ∀ k, unpackH ((bs k) REG_FStat) &&& 0x0001 ≠ 0) :
    initDiverges i2c capacity terminationCurrent lowVoltage address is_r_type bs := by
  intro fuel
  simp only [MAX17262.init]
  rw [if_pos]
  exact pollWhileSet_stuck _ bs REG_FStat 0x0001 h fuel 0

/-- Claim C2 witness: the amended statement at a concrete stuck bus. -/
theorem c2_witness :
    initDiverges 7 100 25000 false 0x55 false stuckBus :=
  c2_unbounded_wait 7 100 25000 false 0x55 false stuckBus stuckBus_bit0

/-! ## Claim C3 -/

/-- Claim C3 counterexample: a negative design capacity (-1 mAh, R-type)
does not raise anything — the constructor completes normally and writes the
two's-complement truncation `[0xFE, 0xFF]` (raw 65534) of the scaled value
-2 to the design-capacity register; no `InvalidParameter` error exists in
the code. -/
theorem c3_counterexample :
    (MAX17262.init 0 (-1) 50000 true 0x36 true zeroBus 1).1 =
      some ⟨0, 0x36, true⟩ ∧
    writesTo REG_DesignCap (MAX17262.init 0 (-1) 50000 true 0x36 true zeroBus 1).2 =
      [[0xFE, 0xFF]] := by
  constructor
  · simp [MAX17262.init, pollWhileSet, MAX17262.read_uint16, zeroBus, unpackH]
  · simp [MAX17262.init, pollWhileSet, MAX17262.read_uint16, zeroBus, unpackH,
      writesTo, REG_ModelCfg, REG_DesignCap, REG_IChgTerm, REG_FStat]
    norm_num [pyint, LSB_CAPACITY_R, packH]
    omega

/-- Claim C3 (amended): construction performs no range validation of the
caller-supplied capacity and termination current.  Whatever rational values
are supplied — negative or overflowing 16 bits after scaling — construction
on a ready bus completes successfully and writes the scaled, truncated
values reduced modulo 2^16 (MicroPython's `struct.pack` does not
range-check) to the design-capacity and termination-current registers; no
`InvalidParameter` error is ever raised. -/
theorem c3_no_validation (capacity terminationCurrent : ℚ)
    (lowVoltage is_r_type : Bool) (i2c address : ℕ) :
    (MAX17262.init i2c capacity terminationCurrent lowVoltage address
        is_r_type zeroBus 1).1 = some ⟨i2c, address, is_r_type⟩ ∧
    writesTo REG_DesignCap (MAX17262.init i2c capacity terminationCurrent
        lowVoltage address is_r_type zeroBus 1).2 =
      [packH (if is_r_type then pyint (capacity / LSB_CAPACITY_R)
        else pyint (capacity / LSB_CAPACITY_H))] ∧
    writesTo REG_IChgTerm (MAX17262.init i2c capacity terminationCurrent
        lowVoltage address is_r_type zeroBus 1).2 =
      [packh (if is_r_type then pyint (terminationCurrent / LSB_CURRENT_R)
        else pyint (terminationCurrent / LSB_CURRENT_H))] := by
  refine ⟨?_, ?_, ?_⟩ <;>
    simp [MAX17262.init, pollWhileSet, MAX17262.read_uint16, zeroBus, unpackH,
      writesTo, REG_ModelCfg, REG_DesignCap, REG_IChgTerm, REG_FStat]

/-! ## Claim C4 -/

/-- Claim C4 (confirmed): every accessor returns `raw * factor`, with `raw`
read unsigned or signed and `factor` per variant exactly as in the spec's
scale-factor table: state of charge unsigned 1/256, times unsigned 5.625,
current signed 156.25 (R) / 52.083 (H), voltage unsigned 1.25/16, remaining
capacity unsigned 0.5 (R) / 0.1667 (H), die temperature signed 1/256. -/
theorem c4_accessor_scaling (i2c addr : ℕ) (rawU : ℕ) (hU : rawU < 65536)
    (rawS : ℤ) (hS1 : -32768 ≤ rawS) (hS2 : rawS ≤ 32767) :
    ((⟨i2c, addr, true⟩ : MAX17262).state_of_charge
        (busWith REG_RepSOC (packH (rawU : ℤ)))).1 = (rawU : ℚ) * (1 / 256) ∧
    ((⟨i2c, addr, false⟩ : MAX17262).state_of_charge
        (busWith REG_RepSOC (packH (rawU : ℤ)))).1 = (rawU : ℚ) * (1 / 256) ∧
    ((⟨i2c, addr, true⟩ : MAX17262).time_to_empty
        (busWith REG_TTE (packH (rawU : ℤ)))).1 = (rawU : ℚ) * 5.625 ∧
    ((⟨i2c, addr, false⟩ : MAX17262).time_to_empty
        (busWith REG_TTE (packH (rawU : ℤ)))).1 = (rawU : ℚ) * 5.625 ∧
    ((⟨i2c, addr, true⟩ : MAX17262).time_to_full
        (busWith REG_TTF (packH (rawU : ℤ)))).1 = (rawU : ℚ) * 5.625 ∧
    ((⟨i2c, addr, false⟩ : MAX17262).time_to_full
        (busWith REG_TTF (packH (rawU : ℤ)))).1 = (rawU : ℚ) * 5.625 ∧
    ((⟨i2c, addr, true⟩ : MAX17262).current
        (busWith REG_Current (packh rawS))).1 = (rawS : ℚ) * 156.25 ∧
    ((⟨i2c, addr, false⟩ : MAX17262).current
        (busWith REG_Current (packh rawS))).1 = (rawS : ℚ) * 52.083 ∧
    ((⟨i2c, addr, true⟩ : MAX17262).voltage
        (busWith REG_VCell (packH (rawU : ℤ)))).1 = (rawU : ℚ) * (1.25 / 16) ∧
    ((⟨i2c, addr, false⟩ : MAX17262).voltage
        (busWith REG_VCell (packH (rawU : ℤ)))).1 = (rawU : ℚ) * (1.25 / 16) ∧
    ((⟨i2c, addr, true⟩ : MAX17262).capacity
        (busWith REG_RepCap (packH (rawU : ℤ)))).1 = (rawU : ℚ) * 0.5 ∧
    ((⟨i2c, addr, false⟩ : MAX17262).capacity
        (busWith REG_RepCap (packH (rawU : ℤ)))).1 = (rawU : ℚ) * 0.1667 ∧
    ((⟨i2c, addr, true⟩ : MAX17262).temperature
        (busWith REG_DieTemp (packh rawS))).1 = (rawS : ℚ) * (1 / 256) ∧
    ((⟨i2c, addr, false⟩ : MAX17262).temperature
        (busWith REG_DieTemp (packh rawS))).1 = (rawS : ℚ) * (1 / 256) := by
  have hu : unpackH (packH (rawU : ℤ)) = rawU := unpackH_packH_of_lt rawU hU
  have hs : unpackh (packh rawS) = rawS := unpackh_packh_of_range rawS hS1 hS2
  refine ⟨?_, ?_, ?_, ?_, ?_, ?_, ?_, ?_, ?_, ?_, ?_, ?_, ?_, ?_⟩ <;>
    simp [MAX17262.state_of_charge, MAX17262.time_to_empty, MAX17262.time_to_full,
      MAX17262.current, MAX17262.voltage, MAX17262.capacity, MAX17262.temperature,
      MAX17262.read_uint16, MAX17262.read_int16, busWith, hu, hs] <;>
    norm_num [LSB_PERCENTAGE, LSB_TIME, LSB_CURRENT_R, LSB_CURRENT_H,
      LSB_VOLTAGE, LSB_CAPACITY_R, LSB_CAPACITY_H, LSB_TEMPERATURE]

/-- Claim C4 witness: the scaling theorem at raw values 512 (unsigned) and
-256 (signed). -/
theorem c4_witness :
    ((⟨0, 0x36, true⟩ : MAX17262).state_of_charge
        (busWith REG_RepSOC (packH ((512 : ℕ) : ℤ)))).1 = ((512 : ℕ) : ℚ) * (1 / 256) ∧
    ((⟨0, 0x36, false⟩ : MAX17262).state_of_charge
        (busWith REG_RepSOC (packH ((512 : ℕ) : ℤ)))).1 = ((512 : ℕ) : ℚ) * (1 / 256) ∧
    ((⟨0, 0x36, true⟩ : MAX17262).time_to_empty
        (busWith REG_TTE (packH ((512 : ℕ) : ℤ)))).1 = ((512 : ℕ) : ℚ) * 5.625 ∧
    ((⟨0, 0x36, false⟩ : MAX17262).time_to_empty
        (busWith REG_TTE (packH ((512 : ℕ) : ℤ)))).1 = ((512 : ℕ) : ℚ) * 5.625 ∧
    ((⟨0, 0x36, true⟩ : MAX17262).time_to_full
        (busWith REG_TTF (packH ((512 : ℕ) : ℤ)))).1 = ((512 : ℕ) : ℚ) * 5.625 ∧
    ((⟨0, 0x36, false⟩ : MAX17262).time_to_full
        (busWith REG_TTF (packH ((512 : ℕ) : ℤ)))).1 = ((512 : ℕ) : ℚ) * 5.625 ∧
    ((⟨0, 0x36, true⟩ : MAX17262).current
        (busWith REG_Current (packh (-256)))).1 = ((-256 : ℤ) : ℚ) * 156.25 ∧
    ((⟨0, 0x36, false⟩ : MAX17262).current
        (busWith REG_Current (packh (-256)))).1 = ((-256 : ℤ) : ℚ) * 52.083 ∧
    ((⟨0, 0x36, true⟩ : MAX17262).voltage
        (busWith REG_VCell (packH ((512 : ℕ) : ℤ)))).1 = ((512 : ℕ) : ℚ) * (1.25 / 16) ∧
    ((⟨0, 0x36, false⟩ : MAX17262).voltage
        (busWith REG_VCell (packH ((512 : ℕ) : ℤ)))).1 = ((512 : ℕ) : ℚ) * (1.25 / 16) ∧
    ((⟨0, 0x36, true⟩ : MAX17262).capacity
        (busWith REG_RepCap (packH ((512 : ℕ) : ℤ)))).1 = ((512 : ℕ) : ℚ) * 0.5 ∧
    ((⟨0, 0x36, false⟩ : MAX17262).capacity
        (busWith REG_RepCap (packH ((512 : ℕ) : ℤ)))).1 = ((512 : ℕ) : ℚ) * 0.1667 ∧
    ((⟨0, 0x36, true⟩ : MAX17262).temperature
        (busWith REG_DieTemp (packh (-256)))).1 = ((-256 : ℤ) : ℚ) * (1 / 256) ∧
    ((⟨0, 0x36, false⟩ : MAX17262).temperature
        (busWith REG_DieTemp (packh (-256)))).1 = ((-256 : ℤ) : ℚ) * (1 / 256) :=
  c4_accessor_scaling 0 0x36 512 (by decide) (-256) (by decide) (by decide)

/-! ## Claim C5 -/

/-- Claim C5 (confirmed): the constructor converts physical units to raw
register units by dividing by the variant LSB and truncating toward zero.
340 mAh at R-type factor 0.5 encodes to raw 680 and is written to the
design-capacity register; raw 680 decodes back to 340 mAh through the
capacity accessor; 50000 µA encodes to raw 320 at R-type factor 156.25 and
to raw 960 at H-type factor 52.083, written to the termination-current
register. -/
theorem c5_encoding :
    pyint ((340 : ℚ) / LSB_CAPACITY_R) = 680 ∧
    writesTo REG_DesignCap
        (MAX17262.init 0 340 50000 true 0x36 true zeroBus 1).2 = [packH 680] ∧
    ((⟨0, 0x36, true⟩ : MAX17262).capacity (busWith REG_RepCap (packH 680))).1 = 340 ∧
    pyint ((50000 : ℚ) / LSB_CURRENT_R) = 320 ∧
    writesTo REG_IChgTerm
        (MAX17262.init 0 340 50000 true 0x36 true zeroBus 1).2 = [packh 320] ∧
    pyint ((50000 : ℚ) / LSB_CURRENT_H) = 960 ∧
    writesTo REG_IChgTerm
        (MAX17262.init 0 340 50000 true 0x36 false zeroBus 1).2 = [packh 960] := by
  have hcap : pyint ((340 : ℚ) / LSB_CAPACITY_R) = 680 := by
    norm_num [pyint, LSB_CAPACITY_R]
  have hcurR : pyint ((50000 : ℚ) / LSB_CURRENT_R) = 320 := by
    norm_num [pyint, LSB_CURRENT_R]
  have hcurH : pyint ((50000 : ℚ) / LSB_CURRENT_H) = 960 := by
    norm_num [pyint, LSB_CURRENT_H]
  have h680 : unpackH (packH 680) = 680 := by
    rw [unpackH_packH]; omega
  refine ⟨hcap, ?_, ?_, hcurR, ?_, hcurH, ?_⟩
  · simp [MAX17262.init, pollWhileSet, MAX17262.read_uint16, zeroBus, unpackH,
      writesTo, REG_ModelCfg, REG_DesignCap, REG_IChgTerm, REG_FStat, hcap]
  · show (unpackH (busWith REG_RepCap (packH 680) REG_RepCap) : ℚ) *
        LSB_CAPACITY_R = 340
    rw [show busWith REG_RepCap (packH 680) REG_RepCap = packH 680 from by
      simp [busWith], h680]
    norm_num [LSB_CAPACITY_R]
  · simp [MAX17262.init, pollWhileSet, MAX17262.read_uint16, zeroBus, unpackH,
      writesTo, REG_ModelCfg, REG_DesignCap, REG_IChgTerm, REG_FStat, hcurR,
      packh, Int.toNat_ofNat]
  · simp [MAX17262.init, pollWhileSet, MAX17262.read_uint16, zeroBus, unpackH,
      writesTo, REG_ModelCfg, REG_DesignCap, REG_IChgTerm, REG_FStat, hcurH,
      packh, Int.toNat_ofNat]

/-! ## Claim C6 -/

/-- Claim C6 (confirmed): the little-endian 16-bit codec round-trips — every
unsigned value below 2^16 survives encode-then-decode, and every signed
value in [-32768, 32767] survives signed encode-then-decode. -/
theorem c6_roundtrip :
    (∀ v : ℕ, v < 65536 → unpackH (packH (v : ℤ)) = v) ∧
    (∀ v : ℤ, -32768 ≤ v → v ≤ 32767 → unpackh (packh v) = v) :=
  ⟨fun v h => unpackH_packH_of_lt v h,
   fun v h1 h2 => unpackh_packh_of_range v h1 h2⟩

/-- Claim C6 witness: the round trips at the extreme values 65535 and
-32768. -/
theorem c6_witness :
    unpackH (packH ((65535 : ℕ) : ℤ)) = 65535 ∧
    unpackh (packh (-32768)) = -32768 :=
  ⟨c6_roundtrip.1 65535 (by decide),
   c6_roundtrip.2 (-32768) (by decide) (by decide)⟩

/-! ## Claim C7 -/

/-- Claim C7 (confirmed): with the bus returning bytes decoding to unsigned
25600 for the state-of-charge register (0x06), the accessor returns exactly
100; with bytes decoding to signed -400 for the die-temperature register
(0x34), the accessor returns exactly -1.5625. -/
theorem c7_concrete :
    unpackH [0x00, 0x64] = 25600 ∧
    ((⟨0, 0x36, true⟩ : MAX17262).state_of_charge
        (busWith REG_RepSOC [0x00, 0x64])).1 = 100 ∧
    unpackh [0x70, 0xFE] = -400 ∧
    ((⟨0, 0x36, true⟩ : MAX17262).temperature
        (busWith REG_DieTemp [0x70, 0xFE])).1 = -1.5625 := by
  refine ⟨by decide, ?_, by decide, ?_⟩ <;>
    norm_num [MAX17262.state_of_charge, MAX17262.temperature,
      MAX17262.read_uint16, MAX17262.read_int16, busWith, unpackH, unpackh,
      LSB_PERCENTAGE, LSB_TEMPERATURE]

/-! ## Claim C8 -/

/-- Claim C8 (confirmed): every accessor performs exactly one 2-byte read of
its register, issues no writes, and returns the driver object unchanged
(bus handle, address and variant flag identical). -/
theorem c8_frame (d : MAX17262) (bus : BusResp) :
    (d.state_of_charge bus).2 = ([Event.readMem d.address REG_RepSOC 2], d) ∧
    (d.time_to_empty bus).2 = ([Event.readMem d.address REG_TTE 2], d) ∧
    (d.time_to_full bus).2 = ([Event.readMem d.address REG_TTF 2], d) ∧
    (d.current bus).2 = ([Event.readMem d.address REG_Current 2], d) ∧
    (d.voltage bus).2 = ([Event.readMem d.address REG_VCell 2], d) ∧
    (d.capacity bus).2 = ([Event.readMem d.address REG_RepCap 2], d) ∧
    (d.temperature bus).2 = ([Event.readMem d.address REG_DieTemp 2], d) := by
  obtain ⟨i, a, rt⟩ := d
  cases rt <;>
    simp [MAX17262.state_of_charge, MAX17262.time_to_empty,
      MAX17262.time_to_full, MAX17262.current, MAX17262.voltage,
      MAX17262.capacity, MAX17262.temperature, MAX17262.read_uint16,
      MAX17262.read_int16]

/-! ## Claim C9 -/

/-- Claim C9 counterexample: a termination current of 6000000 µA scales to
raw 38400 > 32767 on an R-type device, yet construction does not fail with
an encoding error — under MicroPython `struct.pack` semantics it completes
normally, writing the low 16 bits `[0x00, 0x96]` to the termination-current
register. -/
theorem c9_counterexample :
    pyint ((6000000 : ℚ) / LSB_CURRENT_R) = 38400 ∧ 32767 < 38400 ∧
    (MAX17262.init 0 340 6000000 true 0x36 true zeroBus 1).1 =
      some ⟨0, 0x36, true⟩ ∧
    writesTo REG_IChgTerm
        (MAX17262.init 0 340 6000000 true 0x36 true zeroBus 1).2 =
      [[0x00, 0x96]] := by
  have hcur : pyint ((6000000 : ℚ) / LSB_CURRENT_R) = 38400 := by
    norm_num [pyint, LSB_CURRENT_R]
  refine ⟨hcur, by norm_num, ?_, ?_⟩
  · simp [MAX17262.init, pollWhileSet, MAX17262.read_uint16, zeroBus, unpackH]
  · simp [MAX17262.init, pollWhileSet, MAX17262.read_uint16, zeroBus, unpackH,
      writesTo, REG_ModelCfg, REG_DesignCap, REG_IChgTerm, REG_FStat, hcur,
      packh, packH]

/-- Claim C9 (amended): construction encodes the scaled design capacity with
format `"<H"` and the scaled termination current with format `"<h"`, but
under MicroPython struct semantics both truncate the value modulo 2^16
without range checking, so the two encodings produce identical bytes; a
termination current whose scaled raw value exceeds 32767 is therefore
accepted (no encoding error), its low 16 bits written to the register. -/
theorem c9_signed_encoding (v : ℤ) (cur : ℚ) :
    packh v = packH v ∧
    (MAX17262.init 0 340 cur true 0x36 true zeroBus 1).1 =
      some ⟨0, 0x36, true⟩ ∧
    writesTo REG_IChgTerm
        (MAX17262.init 0 340 cur true 0x36 true zeroBus 1).2 =
      [packh (pyint (cur / LSB_CURRENT_R))] := by
  refine ⟨rfl, ?_, ?_⟩
  · simp [MAX17262.init, pollWhileSet, MAX17262.read_uint16, zeroBus, unpackH]
  · simp [MAX17262.init, pollWhileSet, MAX17262.read_uint16, zeroBus, unpackH,
      writesTo, REG_ModelCfg, REG_DesignCap, REG_IChgTerm, REG_FStat]

/-! ## Claim C10 -/

/-- Claim C10 (confirmed): during construction no register write is issued
before a flag-status (0x3D) read returns bit 0 clear — all bus traffic
before the first write consists of flag-status reads, a write in the trace
implies some flag-status read within the fuel bound cleared bit 0, and on
every run in which the bit never reads clear, no register (design capacity,
termination current, model configuration included) is ever written. -/
theorem c10_no_write_before_ready (i2c : ℕ) (capacity terminationCurrent : ℚ)
    (lowVoltage : Bool) (address : ℕ) (is_r_type : Bool)
    (bs : BusStream) (fuel : ℕ) :
    (∀ e ∈ (pollWhileSet ⟨i2c, address, is_r_type⟩ bs REG_FStat 0x0001 fuel 0).2.2,
        e = Event.readMem address REG_FStat 2) ∧
    ((pollWhileSet ⟨i2c, address, is_r_type⟩ bs REG_FStat 0x0001 fuel 0).1 = false →
      (MAX17262.init i2c capacity terminationCurrent lowVoltage address
          is_r_type bs fuel).2 =
        (pollWhileSet ⟨i2c, address, is_r_type⟩ bs REG_FStat 0x0001 fuel 0).2.2 ∧
      (MAX17262.init i2c capacity terminationCurrent lowVoltage address
          is_r_type bs fuel).1 = none) ∧
    (writesOf (MAX17262.init i2c capacity terminationCurrent lowVoltage address
        is_r_type bs fuel).2 ≠ [] →
      ∃ j, j < fuel ∧ unpackH ((bs j) REG_FStat) &&& 0x0001 = 0) ∧
    ((∀ k, unpackH ((bs k) REG_FStat) &&& 0x0001 ≠ 0) →
      (MAX17262.init i2c capacity terminationCurrent lowVoltage address
          is_r_type bs fuel).1 = none ∧
      writesOf (MAX17262.init i2c capacity terminationCurrent lowVoltage address
          is_r_type bs fuel).2 = []) := by
  refine ⟨pollWhileSet_events _ bs REG_FStat 0x0001 fuel 0, ?_, ?_, ?_⟩
  · intro h
    simp only [MAX17262.init]
    rw [if_pos h]
    exact ⟨rfl, rfl⟩
  · intro hw
    rcases hb : (pollWhileSet ⟨i2c, address, is_r_type⟩ bs REG_FStat 0x0001 fuel 0).1 with _ | _
    · exfalso
      apply hw
      simp only [MAX17262.init]
      rw [if_pos hb]
      exact writesOf_pollWhileSet _ bs REG_FStat 0x0001 fuel 0
    · obtain ⟨j, _, hj2, hj3⟩ := pollWhileSet_exit _ bs REG_FStat 0x0001 fuel 0 hb
      exact ⟨j, by omega, hj3⟩
  · intro h
    have hb := pollWhileSet_stuck ⟨i2c, address, is_r_type⟩ bs REG_FStat 0x0001 h fuel 0
    simp only [MAX17262.init]
    rw [if_pos hb]
    exact ⟨rfl, writesOf_pollWhileSet _ bs REG_FStat 0x0001 fuel 0⟩

/-- Claim C10 witness: on a permanently not-ready bus, construction yields
no driver and issues no writes. -/
theorem c10_witness :
    (MAX17262.init 0 340 50000 true 0x36 true stuckBus 4).1 = none ∧
    writesOf (MAX17262.init 0 340 50000 true 0x36 true stuckBus 4).2 = [] :=
  (c10_no_write_before_ready 0 340 50000 true 0x36 true stuckBus 4).2.2.2
    stuckBus_bit0
